import Mathlib

/-
Verification of the EMAN2 aligner subsystem (libEM/aligner.cpp) against its
natural-language specification.

Modelling conventions:
* Pixel contents are symbolic: the `Content` type records which image
  operations produced an image, so that claims about which image object is
  returned (and which operations were applied to it on the way out) are
  expressible without modelling floating-point pixel arithmetic.
* Comparator scores (`cmp` results) and correlation-peak locations are
  universally quantified oracle inputs, since they are produced by external
  collaborators (the comparator registry and `calc_max_location_wrap`) whose
  numeric behaviour the aligners only consume.
* C++ `float` arithmetic that the claims depend on — negating an integer peak,
  halving it, adding 0.5 and flooring — is exact in IEEE floats for the values
  involved, so it is modelled with ℚ.
* C++ `int` division on the nonnegative operands that occur here agrees with
  Lean's `Int` division.
-/

/-- Image sizes (nx, ny, nz) as returned by get_xsize/get_ysize/get_zsize. -/
structure Dims where
  nx : Int
  ny : Int
  nz : Int
deriving DecidableEq, Repr

/-- The parts of EMAN::Transform that the aligners read and write: a 2d
rotation angle alpha (degrees), a translation, and the mirror flag. -/
structure Xform where
  alpha : ℚ
  tx : ℚ
  ty : ℚ
  tz : ℚ
  mirror : Bool
deriving DecidableEq, Repr

/-- Default-constructed Transform (identity). -/
def xformIdentity : Xform :=
  { alpha := 0, tx := 0, ty := 0, tz := 0, mirror := false }

/-- Symbolic pixel contents: which source image and which pipeline of image
operations produced this image.  Each constructor stands for one external
image-backend primitive used by aligner.cpp. -/
inductive Content where
  | base : Nat → Content
  | ccf : Content → Content → Content
  | ccfSelf : Content → Content
  | translateInt : Content → Int × Int × Int → Content
  | mathTransform : Content → Xform → Content
  | rotate180 : Content → Content
  | flipX : Content → Content
  | medianShrink : Content → Content
  | unwrap : Content → Int → Int → Int → Content
  | ccfx : Content → Content → Content
deriving DecidableEq, Repr

/-- An EMData image as the aligners see it: its dimensions, its (symbolic)
pixel contents, and the two alignment metadata slots written by the aligners
("xform.align2d" and "xform.align3d"). -/
structure Image where
  dims : Dims
  content : Content
  align2d : Option Xform
  align3d : Option Xform
deriving DecidableEq, Repr

/-- The exception classes thrown by aligner.cpp. -/
inductive AlignError where
  | imageDimension : String → AlignError
  | invalidParameter : String → AlignError
deriving DecidableEq, Repr

/-- img->process("math.translate.int", trans): new image, same dims, header
(attribute) copy of the input, translated contents. -/
def processTranslateInt (img : Image) (t : Int × Int × Int) : Image :=
  { img with content := .translateInt img.content t }

/-- img->process("math.transform", t): new same-size image, transformed. -/
def processMathTransform (img : Image) (x : Xform) : Image :=
  { img with content := .mathTransform img.content x }

/-- img->process("math.rotate.180") (or copy + process_inplace of it). -/
def processRotate180 (img : Image) : Image :=
  { img with content := .rotate180 img.content }

/-- img->process("xform.flip", axis = x) (or process_inplace of it). -/
def processFlipX (img : Image) : Image :=
  { img with content := .flipX img.content }

/-- img->process("math.medianshrink", n = 2): each axis of extent > 1 halves. -/
def processMedianShrink (img : Image) : Image :=
  { dims := { nx := if img.dims.nx = 1 then 1 else img.dims.nx / 2,
              ny := if img.dims.ny = 1 then 1 else img.dims.ny / 2,
              nz := if img.dims.nz = 1 then 1 else img.dims.nz / 2 },
    content := .medianShrink img.content,
    align2d := img.align2d, align3d := img.align3d }

/-- img->unwrap(r1, r2, xs, dx, dy, do360): polar-unwrapped image of
dimensions (xs, r2 - r1, 1); a freshly allocated image. -/
def unwrapImage (img : Image) (r1 r2 xs : Int) : Image :=
  { dims := { nx := xs, ny := r2 - r1, nz := 1 },
    content := .unwrap img.content r1 r2 xs,
    align2d := none, align3d := none }

/-- a->calc_ccfx(b, y0, y1) with the default summed output: a freshly
allocated 1D image of dimensions (a.nx, 1, 1). -/
def ccfxImage (a b : Image) : Image :=
  { dims := { nx := a.dims.nx, ny := 1, nz := 1 },
    content := .ccfx a.content b.content,
    align2d := none, align3d := none }

/-- Aligner::get_align_attr("xform.align2d", img) followed by
t->set_rotation(alpha): reuse the attached transform when present (else a
fresh identity) and overwrite its rotation. -/
def setRotation2d (img : Image) (alpha : ℚ) : Image :=
  { img with align2d := some { img.align2d.getD xformIdentity with alpha := alpha } }

/-- Aligner::get_set_align_attr("xform.align2d", img, fromImg) followed by
t->set_rotation(alpha): copy fromImg's attached 2d transform (identity when
absent) onto img, then overwrite its rotation. -/
def attachRotation2dFrom (img fromImg : Image) (alpha : ℚ) : Image :=
  { img with align2d := some { fromImg.align2d.getD xformIdentity with alpha := alpha } }

/-- Aligner::get_set_align_attr("xform.align3d", img, fromImg) followed by
t->set_trans(tr). -/
def attachTrans3dFrom (img fromImg : Image) (tr : ℚ × ℚ × ℚ) : Image :=
  { img with align3d := some { fromImg.align3d.getD xformIdentity with
      tx := tr.1, ty := tr.2.1, tz := tr.2.2 } }

/-- Aligner::get_set_align_attr("xform.align2d", img, fromImg) followed by
t->set_trans(tr). -/
def attachTrans2dFrom (img fromImg : Image) (tr : ℚ × ℚ × ℚ) : Image :=
  { img with align2d := some { fromImg.align2d.getD xformIdentity with
      tx := tr.1, ty := tr.2.1, tz := tr.2.2 } }

/-- Truncation of a rational toward zero, as C++ float-to-int conversion.
(Rat.floor is used rather than the floor-notation so that the definition
evaluates inside the kernel.) -/
def truncQ (q : ℚ) : Int :=
  if 0 ≤ q then Rat.floor q else -(Rat.floor (-q))

/-- TranslationalAligner::align, lines 122-139: the per-axis peak-search
bound handed to calc_max_location_wrap.  n is this axis's extent, ms the
"maxshift" parameter (-1 when unset).  The code defaults a non-positive ms to
extent/8, clamps to extent/2 - 1, and forces extent-1 axes to 0, in that
order.  (The code tests maxshiftx <= 0 once; all three axes start from the
same parameter value, so the per-axis formulation is equivalent.) -/
def shiftBound (n ms : Int) : Int :=
  let b := if ms ≤ 0 then n / 8 else ms
  let b2 := if b > n / 2 - 1 then n / 2 - 1 else b
  if n = 1 then 0 else b2

/-- TranslationalAligner::align, lines 158-168: the translation derived from
the raw correlation peak.  cur_trans = -peak; when aligning to self (to null)
it is halved, and with intonly each component becomes floor(x + 0.5). -/
def curTrans (toPresent : Bool) (intonly : Bool) (pk : Int × Int × Int) : ℚ × ℚ × ℚ :=
  let c : ℚ × ℚ × ℚ := (-(pk.1 : ℚ), -(pk.2.1 : ℚ), -(pk.2.2 : ℚ))
  if toPresent then c
  else
    let h : ℚ × ℚ × ℚ := (c.1 / 2, c.2.1 / 2, c.2.2 / 2)
    if intonly then
      (((Rat.floor (h.1 + 1/2) : ℤ) : ℚ), ((Rat.floor (h.2.1 + 1/2) : ℤ) : ℚ),
        ((Rat.floor (h.2.2 + 1/2) : ℤ) : ℚ))
    else h

/-- The configuration bag entries read by TranslationalAligner::align.
none models an unset key ("maxshift" defaults to -1, "intonly" to false;
a missing "nozero" reads as 0 through EMObject's int conversion). -/
structure TransParams where
  maxshift : Option Int
  nozero : Bool
  intonly : Option Bool
deriving Repr

/-- The peak location cf->calc_max_location_wrap(mx, my, mz).  The
correlation image cf is produced by the external calc_ccf primitive from
abstract pixel data, so the peak is an oracle of the three search bounds. -/
def translationalPeak (img : Image) (p : TransParams)
    (peakOf : Int → Int → Int → Int × Int × Int) : Int × Int × Int :=
  let ms := p.maxshift.getD (-1)
  peakOf (shiftBound img.dims.nx ms) (shiftBound img.dims.ny ms) (shiftBound img.dims.nz ms)

/-- TranslationalAligner::align, lines 118-186, after the null and dimension
checks: compute the search bounds, read the (oracle) peak, derive the
translation, translate the moving image, and attach the transform key — 3d
when nz != 1, 2d when only ny != 1 (with its z component zeroed), none for a
1D image. -/
def translationalBody (img : Image) (toRef : Option Image) (p : TransParams)
    (peakOf : Int → Int → Int → Int × Int × Int) : Image :=
  let pk := translationalPeak img p peakOf
  let cur := curTrans toRef.isSome (p.intonly.getD false) pk
  let cf := processTranslateInt img (truncQ cur.1, truncQ cur.2.1, truncQ cur.2.2)
  if img.dims.nz ≠ 1 then attachTrans3dFrom cf img cur
  else if img.dims.ny ≠ 1 then attachTrans2dFrom cf img (cur.1, cur.2.1, 0)
  else cf

/-- TranslationalAligner::align, lines 95-187: a null moving image returns
null at once; a reference of different size throws ImageDimensionException;
otherwise the translated copy is returned. -/
def translationalAlign (this_img toRef : Option Image) (p : TransParams)
    (peakOf : Int → Int → Int → Int × Int × Int) : Except AlignError (Option Image) :=
  match this_img with
  | none => .ok none
  | some img =>
    match toRef with
    | some toImg =>
      if toImg.dims ≠ img.dims then
        .error (.imageDimension "Images must be the same size to perform translational alignment")
      else .ok (some (translationalBody img (some toImg) p peakOf))
    | none => .ok (some (translationalBody img none p peakOf))

/-- RotationalAligner::align_180_ambiguous, lines 189-233.  The rotational
footprints and their row-wise correlation are external primitives working on
abstract pixel data, so the footprint row length (this_img_rfp_nx) and the
index of the correlation maximum (peak_index, from Util::find_max) are oracle
inputs.  rfp_mode outside {0,1,2} throws; otherwise the moving image is
rotated by peak_index * 180 / this_img_rfp_nx degrees and that angle is
recorded in a 2d transform copied onto the result. -/
def RotationalAligner.align180Ambiguous (this_img : Image) (rfp_mode : Int)
    (rfpNx peakIndex : Int) : Except AlignError (Image × ℚ) :=
  if rfp_mode = 0 ∨ rfp_mode = 1 ∨ rfp_mode = 2 then
    let rot_angle : ℚ := (peakIndex : ℚ) * 180 / (rfpNx : ℚ)
    let cf := processMathTransform this_img { xformIdentity with alpha := rot_angle }
    .ok (attachRotation2dFrom cf this_img rot_angle, rot_angle)
  else .error (.invalidParameter "rfp_mode must be 0,1 or 2")

/-- RotationalAligner::align, lines 256-273: keep the 0-degree candidate only
when its comparator score is strictly lower, otherwise keep the 180-degree
candidate and subtract 180 from the reported angle; the chosen angle is
written into the result's attached 2d transform. -/
def RotationalAligner.decide180 (rotAligned rotAligned180 : Image)
    (rotCmp rot180Cmp : ℚ) (angle : ℚ) : Image :=
  if rotCmp < rot180Cmp then setRotation2d rotAligned angle
  else setRotation2d rotAligned180 (angle - 180)

/-- RotationalAligner::align, lines 235-274.  A null reference throws
InvalidParameterException before anything else; then the 180-ambiguous
alignment runs and the two candidates are scored (scores rotCmp and
rot180Cmp are comparator oracles). -/
def RotationalAligner.align (this_img : Image) (toRef : Option Image)
    (rfp_mode : Option Int) (rfpNx peakIndex : Int) (rotCmp rot180Cmp : ℚ) :
    Except AlignError Image :=
  match toRef with
  | none => .error (.invalidParameter "Can not rotational align - the image to align to is NULL")
  | some _ =>
    match RotationalAligner.align180Ambiguous this_img (rfp_mode.getD 0) rfpNx peakIndex with
    | .error e => .error e
    | .ok ra =>
      let rot_align_180 := processRotate180 ra.1
      .ok (RotationalAligner.decide180 ra.1 rot_align_180 rotCmp rot180Cmp ra.2)

/-- RotatePrecenterAligner::align, lines 277-315.  A null reference returns
null.  Otherwise both images are polar-unwrapped (the angular length `size`
comes from Util::calc_best_fft_size(pi * ny * 1.5), an external primitive
supplied here as an oracle), their row-wise correlation cf is computed, an
angle is derived from cf's maximum (peak index oracle), and cf itself — the
1D correlation buffer, not a transformed copy of the moving image — is
given the 2d transform attribute and returned. -/
def RotatePrecenterAligner.align (this_img : Image) (toRef : Option Image)
    (size peakIndex : Int) : Except AlignError (Option Image) :=
  match toRef with
  | none => .ok none
  | some toImg =>
    let ny := this_img.dims.ny
    let e1 := unwrapImage this_img 4 (ny * 7 / 16) size
    let e2 := unwrapImage toImg 4 (ny * 7 / 16) size
    let cf := ccfxImage e1 e2
    let a : ℚ := (1 - (peakIndex : ℚ) / (size : ℚ)) * 180 * 2
    .ok (some (attachRotation2dFrom cf this_img (-a)))

/-- RotateTranslateAligner::align, lines 349-373: after both rotation
branches get their own translational refinement, keep the branch with the
strictly lower comparator score; ties go to the 180-degree branch, whose
reported angle is reduced by 180.  The chosen angle overwrites the rotation
of the transform already attached to the winning image. -/
def RotateTranslateAligner.decideBranch (rotTrans rot180Trans : Image)
    (cmp1 cmp2 : ℚ) (angle : ℚ) : Image :=
  if cmp1 < cmp2 then setRotation2d rotTrans angle
  else setRotation2d rot180Trans (angle - 180)

/-- RotateFlipAligner::align, lines 449-467: keep the un-mirrored rotational
candidate only when its score is strictly lower; otherwise keep the
mirrored-reference candidate and flip it in place before returning. -/
def RotateFlipAligner.decideBranch (r1 r2 : Image) (cmp1 cmp2 : ℚ) : Image :=
  if cmp1 < cmp2 then r1 else processFlipX r2

/-- RotateTranslateFlipAligner::align, lines 398-425: keep the un-mirrored
rotate-translate candidate only when its score is strictly lower; otherwise
keep the candidate aligned against the mirrored reference and flip it in
place (xform.flip about x) before returning. -/
def RotateTranslateFlipAligner.decideBranch (rotTransAlign rotTransAlignFlip : Image)
    (cmp1 cmp2 : ℚ) : Image :=
  if cmp1 < cmp2 then rotTransAlign else processFlipX rotTransAlignFlip

/-- Image-level operations performed by RTFSlowExhaustiveAligner::align, in
program order, used to witness what has already run when a configuration
error is thrown. -/
inductive ImgOp where
  | copyMoving
  | flipReference
  | shrinkImages
deriving DecidableEq, Repr

/-- EMConsts::deg2rad (only its strict positivity matters to the control
flow modelled here). -/
def deg2rad : ℚ := 3141592653589793 / 180000000000000000

/-- The value of angle_step in RTFSlowExhaustiveAligner::align, lines
772-776: a supplied nonzero "angstep" is converted to radians, while zero or
unset selects atan2(2, nx).  atan2 with first argument 2 > 0 returns a value
in (0, pi), so the derived default is strictly positive whatever nx is; the
derived case is kept symbolic with exactly that fact. -/
inductive AngleStep where
  | derivedAtan : Int → AngleStep
  | explicitRad : ℚ → AngleStep
deriving DecidableEq, Repr

/-- The test "angle_step <= 0" of line 780: false on the derived branch
(atan2(2, nx) > 0 always), the literal comparison on a supplied value. -/
def AngleStep.nonpos : AngleStep → Bool
  | .derivedAtan _ => false
  | .explicitRad r => decide (r ≤ 0)

/-- RTFSlowExhaustiveAligner::align, lines 747-786, up to and including the
configuration checks.  Before transtep/angstep are validated the function
has already copied the moving image (line 754) and, when no precomputed
"flip" image was supplied, flipped the reference (line 763); only after the
checks pass are the three shrunk images computed and the search loops run.
The returned list is the image work performed up to the exit point. -/
def RTFSlowExhaustiveAligner.prelude (transtep angstep : Option ℚ)
    (flipProvided : Bool) (nx : Int) : List ImgOp × Except AlignError Unit :=
  let ops := ImgOp.copyMoving :: (if flipProvided then [] else [ImgOp.flipReference])
  let angstepDeg := angstep.getD 0
  let angle_step := if angstepDeg = 0 then AngleStep.derivedAtan nx
    else AngleStep.explicitRad (angstepDeg * deg2rad)
  let trans_step := transtep.getD 1
  if trans_step ≤ 0 then
    (ops, .error (.invalidParameter "transstep must be greater than 0"))
  else if angle_step.nonpos then
    (ops, .error (.invalidParameter "angstep must be greater than 0"))
  else
    (ops ++ [ImgOp.shrinkImages], .ok ())

/-- One gsl_multimin_fminimizer_iterate call as the refine loop sees it: did
the call succeed (status == GSL_SUCCESS), the simplex size afterwards, and
the minimizer's current point (dx, dy, dAngle) afterwards.  The numeric
minimizer is an external collaborator, so the sequence of its iterates is an
oracle indexed by the number of iterate calls made so far. -/
structure RefIter where
  ok : Bool
  size : ℚ
  pt : ℚ × ℚ × ℚ
deriving Repr

/-- RefineAligner::align, lines 1050-1063, the minimization loop:
iter starts at 1 and the loop runs while rval == GSL_CONTINUE and
iter < maxiter, so at most maxiter - 1 iterate calls happen; `fuel` is
maxiter - iter.  Each pass calls iterate (advancing the oracle), breaks on a
bad status, and otherwise tests the simplex size against precision.
Returns (number of iterate calls made, final point). -/
def refineLoopGo (orc : Nat → RefIter) (precision : ℚ) :
    Nat → Nat → (ℚ × ℚ × ℚ) → Nat × (ℚ × ℚ × ℚ)
  | 0, count, cur => (count, cur)
  | fuel + 1, count, _cur =>
    let r := orc count
    if !r.ok then (count + 1, r.pt)
    else if r.size < precision then (count + 1, r.pt)
    else refineLoopGo orc precision fuel (count + 1) r.pt

/-- The refine loop entered with iter = 1 and the seed point x0. -/
def refineLoopRun (orc : Nat → RefIter) (precision : ℚ) (maxiter : Nat)
    (x0 : ℚ × ℚ × ℚ) : Nat × (ℚ × ℚ × ℚ) :=
  refineLoopGo orc precision (maxiter - 1) 0 x0

/-- RefineAligner::align, lines 998-1006: the seed (sdx, sdy, saz, mirror)
decomposed from the optional "xform.align2d" parameter, identity otherwise. -/
def refineSeed (seed : Option Xform) : (ℚ × ℚ × ℚ) × Bool :=
  match seed with
  | some t => ((t.tx, t.ty, t.alpha), t.mirror)
  | none => ((0, 0, 0), false)

/-- RefineAligner::align, lines 1065-1067: the Transform tsoln built from
the minimizer's final point (whatever way the loop ended) and the fixed
mirror flag. -/
def refineSoln (seed : Option Xform) (orc : Nat → RefIter) (precision : ℚ)
    (maxiter : Nat) : Xform :=
  let s := refineSeed seed
  let out := refineLoopRun orc precision maxiter s.1
  { alpha := out.2.2.2, tx := out.2.1, ty := out.2.2.1, tz := 0, mirror := s.2 }

/-- RefineAligner::align, lines 982-1078.  A null reference returns null
immediately (no exception).  Otherwise the loop runs and — whether it ended
by convergence, by a bad iterate status, or by exhausting the iteration
budget — tsoln is attached to the copied moving image as "xform.align2d"
and the transformed copy is returned. -/
def RefineAligner.align (this_img : Image) (toRef : Option Image)
    (seed : Option Xform) (orc : Nat → RefIter) (precision : ℚ) (maxiter : Nat) :
    Except AlignError (Option Image) :=
  match toRef with
  | none => .ok none
  | some _ =>
    let tsoln := refineSoln seed orc precision maxiter
    .ok (some { dims := this_img.dims,
                content := .mathTransform this_img.content tsoln,
                align2d := some tsoln,
                align3d := this_img.align3d })

/-- A 64x64 2D test image with no attached alignment metadata. -/
def img64 : Image :=
  { dims := { nx := 64, ny := 64, nz := 1 }, content := .base 0,
    align2d := none, align3d := none }

/-- A second, distinct 64x64 2D test image. -/
def ref64 : Image :=
  { dims := { nx := 64, ny := 64, nz := 1 }, content := .base 1,
    align2d := none, align3d := none }

/-- An 8x1x1 one-dimensional test image. -/
def img1d : Image :=
  { dims := { nx := 8, ny := 1, nz := 1 }, content := .base 2,
    align2d := none, align3d := none }

/-- A 4x4x4 volumetric test image. -/
def img3d : Image :=
  { dims := { nx := 4, ny := 4, nz := 4 }, content := .base 3,
    align2d := none, align3d := none }

/-- A peak oracle returning a fixed peak location. -/
def peakConst (pk : Int × Int × Int) : Int → Int → Int → Int × Int × Int :=
  fun _ _ _ => pk

/-- A minimizer oracle whose iterates always succeed with simplex size 1:
the loop never meets any precision below 1 and runs to its iteration cap. -/
def orcFlat : Nat → RefIter :=
  fun _ => { ok := true, size := 1, pt := (0, 0, 0) }

/-- C9: TranslationalAligner::align returns null as its very first action
when the moving image is null — for every reference (even one whose
dimensions would otherwise throw ImageDimensionException) and every
configuration, no error is raised and no work happens. -/
theorem translational_null_moving_returns_null :
    ∀ (toRef : Option Image) (p : TransParams)
      (peakOf : Int → Int → Int → Int × Int × Int),
      translationalAlign none toRef p peakOf = .ok none := by
  intro toRef p peakOf
  rfl

/-- C2 (counterexample): the claim says a null reference makes the refine
aligner fail with an invalid-input failure rather than silently returning
null, but RefineAligner::align (line 986) returns a null image with no
error at this concrete input. -/
theorem refine_null_reference_silent_null :
    RefineAligner.align img64 none none orcFlat 1 28 = .ok none := by
  rfl

/-- C2 (amended): with a null reference the rotational aligner throws
InvalidParameterException before any other work, but the refine aligner
silently returns a null result with no failure. -/
theorem null_reference_split_behavior :
    (∀ (this_img : Image) (rfp : Option Int) (rfpNx pk : Int) (c1 c2 : ℚ),
       RotationalAligner.align this_img none rfp rfpNx pk c1 c2 =
         .error (.invalidParameter
           "Can not rotational align - the image to align to is NULL"))
    ∧ (∀ (this_img : Image) (seed : Option Xform) (orc : Nat → RefIter)
         (precision : ℚ) (maxiter : Nat),
         RefineAligner.align this_img none seed orc precision maxiter = .ok none) := by
  constructor
  · intro this_img rfp rfpNx pk c1 c2
    rfl
  · intro this_img seed orc precision maxiter
    rfl

/-- C4: the translational aligner's per-axis search bound.  When maxshift is
unset or non-positive the bound comes from extent/8 (and, for extent at
least 2, the subsequent clamp leaves extent/8 unchanged); for every axis of
extent at least 2 the final bound is at most extent/2 - 1; and an axis of
extent 1 always gets bound 0. -/
theorem translational_shiftBound_policy :
    ∀ (n ms : Int), 1 ≤ n →
      ((ms ≤ 0 → 1 < n → shiftBound n ms = n / 8)
       ∧ (1 < n → shiftBound n ms ≤ n / 2 - 1)
       ∧ (n = 1 → shiftBound n ms = 0)) := by
  intro n ms _h1
  refine ⟨?_, ?_, ?_⟩
  · intro hms hn
    simp only [shiftBound, if_pos hms, if_neg (by omega : ¬ n = 1)]
    split <;> omega
  · intro hn
    simp only [shiftBound, if_neg (by omega : ¬ n = 1)]
    split <;> split <;> omega
  · intro hn
    simp [shiftBound, hn]

/-- C4 (witness): at extent 16 with maxshift unset (-1), the bound is
16/8 = 2; at extent 1 it is 0; at extent 64 with maxshift 100 the clamp
gives at most 31. -/
theorem translational_shiftBound_policy_witness :
    shiftBound 16 (-1) = 2 ∧ shiftBound 1 7 = 0 ∧ shiftBound 64 100 ≤ 31 := by
  refine ⟨?_, ?_, ?_⟩
  · exact (translational_shiftBound_policy 16 (-1) (by norm_num)).1 (by norm_num) (by norm_num)
  · exact (translational_shiftBound_policy 1 7 (by norm_num)).2.2 rfl
  · exact (translational_shiftBound_policy 64 100 (by norm_num)).2.1 (by norm_num)

/-- C7: in RotateTranslateFlipAligner::align, whenever the branch aligned
against the mirrored reference has the winning (lower or equal) comparator
score, the returned image is the flipped-branch image flipped once more
about x (process_inplace "xform.flip"), with its dimensions and attached
metadata (including the mirror flag set on it earlier) untouched. -/
theorem rtf_mirror_branch_reflipped :
    ∀ (rta rtaf : Image) (c1 c2 : ℚ), c2 < c1 →
      RotateTranslateFlipAligner.decideBranch rta rtaf c1 c2 = processFlipX rtaf
      ∧ (RotateTranslateFlipAligner.decideBranch rta rtaf c1 c2).content
          = .flipX rtaf.content
      ∧ (RotateTranslateFlipAligner.decideBranch rta rtaf c1 c2).align2d
          = rtaf.align2d
      ∧ (RotateTranslateFlipAligner.decideBranch rta rtaf c1 c2).dims = rtaf.dims := by
  intro rta rtaf c1 c2 h
  have hn : ¬ c1 < c2 := not_lt_of_gt h
  refine ⟨?_, ?_, ?_, ?_⟩ <;>
    simp [RotateTranslateFlipAligner.decideBranch, processFlipX, if_neg hn]

/-- C7 (witness): with the mirrored branch scoring 0 against 1, the result
is the flipped-branch fixture flipped again about x. -/
theorem rtf_mirror_branch_reflipped_witness :
    RotateTranslateFlipAligner.decideBranch img64 ref64 1 0 = processFlipX ref64 := by
  exact (rtf_mirror_branch_reflipped img64 ref64 1 0 (by norm_num)).1

/-- Rat.floor agrees with the floor of the FloorRing instance on ℚ. -/
theorem ratFloor_eq_intFloor (q : ℚ) : (Rat.floor q : ℤ) = ⌊q⌋ := by
  rw [Rat.floor_def', Rat.floor_def]

/-- C1 (counterexample): with both branch scores exactly equal (both 0),
RotationalAligner::align does not return the first-evaluated (0-degree)
candidate: the returned image's pixel contents carry the math.rotate.180
applied to the 0-degree candidate, so the 180-degree branch won the tie. -/
theorem rotational_tie_counterexample :
    (RotationalAligner.align img64 (some ref64) none 128 0 0 0 =
       .ok (setRotation2d
         (processRotate180
           (attachRotation2dFrom
             (processMathTransform img64 { xformIdentity with alpha := 0 })
             img64 0))
         (0 - 180)))
    ∧ ((RotationalAligner.align img64 (some ref64) none 128 0 0 0).toOption.map
          Image.content
        ≠ some (Content.mathTransform img64.content { xformIdentity with alpha := 0 })) := by
  constructor
  · simp [RotationalAligner.align, RotationalAligner.align180Ambiguous,
      RotationalAligner.decide180]
  · simp [RotationalAligner.align, RotationalAligner.align180Ambiguous,
      RotationalAligner.decide180, setRotation2d, processRotate180,
      attachRotation2dFrom, processMathTransform, img64, Except.toOption]

/-- C1 (amended): in all four composite aligners the two branch scores are
compared with a strict less-than, so whenever the second branch's score is
less than or equal to the first's — in particular at an exact tie — the
second-evaluated (180-degree-rotated / mirrored-reference) branch's
candidate is the one returned. -/
theorem composite_ties_favor_second_branch :
    ∀ (b1 b2 : Image) (c1 c2 angle : ℚ), c2 ≤ c1 →
      RotationalAligner.decide180 b1 b2 c1 c2 angle = setRotation2d b2 (angle - 180)
      ∧ RotateTranslateAligner.decideBranch b1 b2 c1 c2 angle
          = setRotation2d b2 (angle - 180)
      ∧ RotateFlipAligner.decideBranch b1 b2 c1 c2 = processFlipX b2
      ∧ RotateTranslateFlipAligner.decideBranch b1 b2 c1 c2 = processFlipX b2 := by
  intro b1 b2 c1 c2 angle h
  have hn : ¬ c1 < c2 := not_lt.mpr h
  exact ⟨by simp [RotationalAligner.decide180, if_neg hn],
    by simp [RotateTranslateAligner.decideBranch, if_neg hn],
    by simp [RotateFlipAligner.decideBranch, if_neg hn],
    by simp [RotateTranslateFlipAligner.decideBranch, if_neg hn]⟩

/-- C1 (witness): at an exact tie (both scores 1) the rotational decision
returns the 180-degree candidate with the angle reduced by 180. -/
theorem composite_ties_favor_second_branch_witness :
    RotationalAligner.decide180 img64 ref64 1 1 90 = setRotation2d ref64 (90 - 180) := by
  exact (composite_ties_favor_second_branch img64 ref64 1 1 90 le_rfl).1

/-- C3 (code evaluation): RotatePrecenterAligner::align on a 64x64 moving
image returns the 1D row-correlation buffer of the two polar-unwrapped
images — an image of dimensions (size, 1, 1) for every value `size` of the
best-fft-size oracle — and never an image with the moving image's own
dimensions (ny = 64), contradicting the spec's output-dimension invariant,
which every other aligner in the file satisfies by returning a transformed
copy of the moving image. -/
theorem rotate_precenter_returns_correlation_buffer :
    ∀ (size pk : Int), ∃ res : Image,
      RotatePrecenterAligner.align img64 (some ref64) size pk = .ok (some res)
      ∧ res.dims = { nx := size, ny := 1, nz := 1 }
      ∧ res.dims ≠ img64.dims := by
  intro size pk
  refine ⟨_, rfl, rfl, ?_⟩
  intro h
  have h2 := congrArg Dims.ny h
  simp [attachRotation2dFrom, ccfxImage, unwrapImage, img64] at h2

/-- Default translational configuration: every key unset. -/
def pDefault : TransParams := { maxshift := none, nozero := false, intonly := none }

/-- C5: in the translational aligner's self-alignment path (null reference),
the translation is the negated raw peak offset halved on every axis; with
intonly set, each halved component is floor(value + 0.5); and the value
attached to the returned image's 3d transform key (for a volumetric moving
image) is exactly that translation. -/
theorem translational_self_align_halving :
    (∀ pk : Int × Int × Int,
       curTrans false false pk
         = (-(pk.1 : ℚ) / 2, -(pk.2.1 : ℚ) / 2, -(pk.2.2 : ℚ) / 2))
    ∧ (∀ pk : Int × Int × Int,
       curTrans false true pk
         = (((⌊-(pk.1 : ℚ) / 2 + 1/2⌋ : ℤ) : ℚ), ((⌊-(pk.2.1 : ℚ) / 2 + 1/2⌋ : ℤ) : ℚ),
             ((⌊-(pk.2.2 : ℚ) / 2 + 1/2⌋ : ℤ) : ℚ)))
    ∧ (∀ (img : Image) (p : TransParams)
         (peakOf : Int → Int → Int → Int × Int × Int),
         img.dims.nz ≠ 1 →
         ∃ res, translationalAlign (some img) none p peakOf = .ok (some res)
           ∧ res.align3d.map (fun xf => (xf.tx, xf.ty, xf.tz))
               = some (curTrans false (p.intonly.getD false)
                   (translationalPeak img p peakOf))) := by
  refine ⟨?_, ?_, ?_⟩
  · intro pk
    simp [curTrans]
  · intro pk
    simp [curTrans, ratFloor_eq_intFloor]
  · intro img p peakOf hnz
    refine ⟨_, rfl, ?_⟩
    simp [translationalBody, if_pos hnz, attachTrans3dFrom]

/-- C5 (witness): a 4x4x4 self-alignment with raw peak (3, -5, 1) attaches
translation (-3/2, 5/2, -1/2) to the 3d transform key. -/
theorem translational_self_align_halving_witness :
    (translationalBody img3d none pDefault (peakConst (3, -5, 1))).align3d.map
        (fun xf => (xf.tx, xf.ty, xf.tz))
      = some (-(3 : ℚ) / 2, (5 : ℚ) / 2, -(1 : ℚ) / 2) := by
  obtain ⟨res, h1, h2⟩ := translational_self_align_halving.2.2 img3d pDefault
    (peakConst (3, -5, 1)) (by decide)
  have h1' : (Except.ok (some res) : Except AlignError (Option Image))
      = .ok (some (translationalBody img3d none pDefault (peakConst (3, -5, 1)))) := h1.symm
  have hres : res = translationalBody img3d none pDefault (peakConst (3, -5, 1)) := by
    simpa using h1'
  rw [hres] at h2
  rw [h2]
  simp only [pDefault, translationalPeak, peakConst, Option.getD]
  norm_num [curTrans]

/-- C10: in the translational aligner, the transform key written onto the
returned image follows the dimensionality of the moving image: a 1D moving
image (ny = 1 and nz = 1) gets no key written (the returned copy just keeps
the moving image's own metadata slots — none when the input has none); the
3d key is written exactly when nz is not 1, and the 2d key when nz is 1 but
ny is not. -/
theorem translational_transform_key_policy :
    ∀ (img : Image) (toRef : Option Image) (p : TransParams)
      (peakOf : Int → Int → Int → Int × Int × Int) (res : Image),
      translationalAlign (some img) toRef p peakOf = .ok (some res) →
      ((img.dims.ny = 1 → img.dims.nz = 1 →
          res.align2d = img.align2d ∧ res.align3d = img.align3d)
       ∧ (img.dims.nz ≠ 1 → res.align3d.isSome = true)
       ∧ (img.dims.nz = 1 → img.dims.ny ≠ 1 → res.align2d.isSome = true)) := by
  intro img toRef p peakOf res h
  have hres : res = translationalBody img toRef p peakOf := by
    cases toRef with
    | none =>
      simp only [translationalAlign] at h
      simpa using h.symm
    | some t =>
      simp only [translationalAlign] at h
      split at h
      · simp at h
      · simpa using h.symm
  subst hres
  refine ⟨?_, ?_, ?_⟩
  · intro hny hnz
    simp [translationalBody, hny, hnz, processTranslateInt]
  · intro hnz
    simp [translationalBody, if_pos hnz, attachTrans3dFrom]
  · intro hnz hny
    simp [translationalBody, hnz, hny, attachTrans2dFrom]

/-- C10 (witness): an 8x1x1 moving image with clean metadata comes back with
neither transform key attached. -/
theorem translational_transform_key_policy_witness :
    (translationalBody img1d none pDefault (peakConst (0, 0, 0))).align2d = none
    ∧ (translationalBody img1d none pDefault (peakConst (0, 0, 0))).align3d = none := by
  have h := translational_transform_key_policy img1d none pDefault (peakConst (0, 0, 0))
    (translationalBody img1d none pDefault (peakConst (0, 0, 0))) rfl
  have h1 := h.1 rfl rfl
  simpa [img1d] using h1

/-- Whether an outcome is an InvalidParameterException (a configuration
failure) rather than success or another failure. -/
def isConfigFailure : Except AlignError Unit → Bool
  | .error (.invalidParameter _) => true
  | _ => false

/-- C6 (counterexample): the claim says every call with angstep <= 0 raises
a configuration failure before any computation on the images, but a call
with angstep = 0 (and transtep = 1) raises nothing — angle_step is replaced
by the derived default atan2(2, nx) before the sign check — and the run
proceeds through copy, flip and shrink into the search. -/
theorem slowex_angstep_zero_no_failure :
    RTFSlowExhaustiveAligner.prelude (some 1) (some 0) false 64
      = ([ImgOp.copyMoving, ImgOp.flipReference, ImgOp.shrinkImages], .ok ()) := by
  norm_num [RTFSlowExhaustiveAligner.prelude, AngleStep.nonpos]

/-- C6 (amended): a configuration failure (InvalidParameterException) is
raised whenever transtep <= 0, or whenever a supplied nonzero angstep is
negative (a supplied angstep of exactly 0 instead selects the positive
derived default atan2(2, nx) and does not fail); the check happens before
the shrunk images and the search loops, but after the moving image has been
copied and — when no precomputed flip image is supplied — after the
reference has been flipped. -/
theorem slowex_validation_policy :
    ∀ (ts as : ℚ) (fp : Bool) (nx : Int),
      ts ≤ 0 ∨ as < 0 →
      isConfigFailure (RTFSlowExhaustiveAligner.prelude (some ts) (some as) fp nx).2 = true
      ∧ (RTFSlowExhaustiveAligner.prelude (some ts) (some as) fp nx).1
          = ImgOp.copyMoving :: (if fp then [] else [ImgOp.flipReference]) := by
  intro ts as fp nx h
  have hd : (0 : ℚ) < deg2rad := by norm_num [deg2rad]
  by_cases hts : ts ≤ 0
  · constructor
    · simp [RTFSlowExhaustiveAligner.prelude, if_pos hts, isConfigFailure]
    · simp [RTFSlowExhaustiveAligner.prelude, if_pos hts]
  · have has : as < 0 := h.resolve_left hts
    have hasne : ¬ as = 0 := ne_of_lt has
    have hprod : as * deg2rad ≤ 0 := by nlinarith
    constructor
    · simp [RTFSlowExhaustiveAligner.prelude, if_neg hts, hasne,
        AngleStep.nonpos, hprod, isConfigFailure]
    · simp [RTFSlowExhaustiveAligner.prelude, if_neg hts, hasne,
        AngleStep.nonpos, hprod]

/-- C6 (witness): transtep = 0 with a positive angstep on a 64-wide image
fails the configuration check, with the moving image already copied and the
reference already flipped. -/
theorem slowex_validation_policy_witness :
    isConfigFailure (RTFSlowExhaustiveAligner.prelude (some 0) (some 1) false 64).2 = true
    ∧ (RTFSlowExhaustiveAligner.prelude (some 0) (some 1) false 64).1
        = [ImgOp.copyMoving, ImgOp.flipReference] := by
  have h := slowex_validation_policy 0 1 false 64 (Or.inl le_rfl)
  simpa using h

/-- The refine loop makes at most `fuel` iterate calls beyond `count`. -/
theorem refineLoopGo_count_le (orc : Nat → RefIter) (prec : ℚ) :
    ∀ (fuel count : Nat) (cur : ℚ × ℚ × ℚ),
      (refineLoopGo orc prec fuel count cur).1 ≤ count + fuel := by
  intro fuel
  induction fuel with
  | zero =>
    intro count cur
    simp [refineLoopGo]
  | succ f ih =>
    intro count cur
    simp only [refineLoopGo]
    split
    · omega
    · split
      · omega
      · have := ih (count + 1) (orc count).pt
        omega

/-- When every iterate succeeds with a simplex size at least `prec`, the
refine loop spends its whole fuel. -/
theorem refineLoopGo_count_eq (orc : Nat → RefIter) (prec : ℚ)
    (h : ∀ k, (orc k).ok = true ∧ ¬ (orc k).size < prec) :
    ∀ (fuel count : Nat) (cur : ℚ × ℚ × ℚ),
      (refineLoopGo orc prec fuel count cur).1 = count + fuel := by
  intro fuel
  induction fuel with
  | zero =>
    intro count cur
    simp [refineLoopGo]
  | succ f ih =>
    intro count cur
    have hok := (h count).1
    have hsz := (h count).2
    simp only [refineLoopGo, hok, Bool.not_true, if_neg hsz]
    simp only [Bool.false_eq_true, if_false]
    have := ih (count + 1) (orc count).pt
    omega

/-- C8 (counterexample): the claim says the loop stops after maxiter
iterations (default 28) have been performed, but with a minimizer whose
simplex size never falls below the default precision 0.04, the loop entered
with the default maxiter = 28 performs only 27 iterate calls (iter starts at
1 and the loop runs while iter < maxiter). -/
theorem refine_maxiter_counterexample :
    (refineLoopRun orcFlat (0.04 : ℚ) 28 (0, 0, 0)).1 = 27 ∧ (27 : Nat) ≠ 28 := by
  constructor
  · have h := refineLoopGo_count_eq orcFlat (0.04 : ℚ)
      (fun k => ⟨rfl, by norm_num [orcFlat]⟩) 27 0 (0, 0, 0)
    simpa [refineLoopRun] using h
  · decide

/-- C8 (amended): the refine minimization loop performs at most maxiter - 1
iterations (27 with the default maxiter = 28), exactly that many when the
simplex size never falls below precision; and exhausting the budget is not
an error — for every loop outcome the minimizer's final point is built into
the Transform tsoln, attached to the returned copy of the moving image as
its 2d alignment, and the call succeeds. -/
theorem refine_iteration_cap :
    (∀ (orc : Nat → RefIter) (prec : ℚ) (maxiter : Nat) (x0 : ℚ × ℚ × ℚ),
       (refineLoopRun orc prec maxiter x0).1 ≤ maxiter - 1)
    ∧ (∀ (orc : Nat → RefIter) (prec : ℚ) (maxiter : Nat) (x0 : ℚ × ℚ × ℚ),
       (∀ k, (orc k).ok = true ∧ ¬ (orc k).size < prec) →
       (refineLoopRun orc prec maxiter x0).1 = maxiter - 1)
    ∧ (∀ (this_img toImg : Image) (seed : Option Xform) (orc : Nat → RefIter)
         (prec : ℚ) (maxiter : Nat),
       RefineAligner.align this_img (some toImg) seed orc prec maxiter
         = .ok (some { dims := this_img.dims,
                       content := .mathTransform this_img.content
                         (refineSoln seed orc prec maxiter),
                       align2d := some (refineSoln seed orc prec maxiter),
                       align3d := this_img.align3d })) := by
  refine ⟨?_, ?_, ?_⟩
  · intro orc prec maxiter x0
    have := refineLoopGo_count_le orc prec (maxiter - 1) 0 x0
    simpa [refineLoopRun] using this
  · intro orc prec maxiter x0 h
    have := refineLoopGo_count_eq orc prec h (maxiter - 1) 0 x0
    simpa [refineLoopRun] using this
  · intro this_img toImg seed orc prec maxiter
    rfl

/-- C8 (witness): with the never-converging minimizer oracle and the default
precision and maxiter, the loop performs exactly 27 iterations, and the call
on the 64x64 fixtures succeeds with tsoln attached. -/
theorem refine_iteration_cap_witness :
    (refineLoopRun orcFlat (0.04 : ℚ) 28 (0, 0, 0)).1 = 27
    ∧ RefineAligner.align img64 (some ref64) none orcFlat (0.04 : ℚ) 28
        = .ok (some { dims := img64.dims,
                      content := .mathTransform img64.content
                        (refineSoln none orcFlat (0.04 : ℚ) 28),
                      align2d := some (refineSoln none orcFlat (0.04 : ℚ) 28),
                      align3d := img64.align3d }) := by
  constructor
  · have h := refine_iteration_cap.2.1 orcFlat (0.04 : ℚ) 28 (0, 0, 0)
      (fun k => ⟨rfl, by norm_num [orcFlat]⟩)
    simpa using h
  · exact refine_iteration_cap.2.2 img64 ref64 none orcFlat (0.04 : ℚ) 28

/-- Supporting fact for the dimension invariant: the translational aligner's
returned image always keeps the moving image's dimensions. -/
theorem translationalBody_dims_eq (img : Image) (toRef : Option Image)
    (p : TransParams) (peakOf : Int → Int → Int → Int × Int × Int) :
    (translationalBody img toRef p peakOf).dims = img.dims := by
  simp only [translationalBody, attachTrans3dFrom, attachTrans2dFrom, processTranslateInt]
  split <;> [rfl; skip]
  split <;> rfl

/-- Supporting fact for the dimension invariant: a successful refine
alignment returns an image with the moving image's dimensions. -/
theorem refine_align_dims_eq (this_img toImg : Image) (seed : Option Xform)
    (orc : Nat → RefIter) (prec : ℚ) (maxiter : Nat) :
    ∀ res, RefineAligner.align this_img (some toImg) seed orc prec maxiter
        = .ok (some res) → res.dims = this_img.dims := by
  intro res h
  have h0 : RefineAligner.align this_img (some toImg) seed orc prec maxiter
      = .ok (some { dims := this_img.dims,
                    content := .mathTransform this_img.content (refineSoln seed orc prec maxiter),
                    align2d := some (refineSoln seed orc prec maxiter),
                    align3d := this_img.align3d }) := rfl
  have h2 := Option.some.inj (Except.ok.inj (h.symm.trans h0))
  rw [h2]
